import Mathlib

/-!
Verification development for the ctlptl cluster controller sources
(`pkg/cluster/cluster.go` and `pkg/cmd/get.go`).

Go's `time.Time` is modelled as `Int` (its zero value is `0`, `Before` is `<`).
Go maps with string keys are modelled as association lists; map update is
`mapSet`.  Fallible Go calls (`(T, error)` returns) are modelled with
`Except Err`.  External collaborators (the Kubernetes client construction,
the node-list query, the human-duration renderer) are abstracted as function
parameters, exactly at the boundaries where the source calls out of the
repository.
-/

namespace Ctlptl

/-- Go `time.Time`, as used through `metav1.Time`.  The zero value is `0`. -/
abbrev GoTime := Int

/-- `time.Time.IsZero`. -/
def timeIsZero (t : GoTime) : Bool := t == 0

/-- `time.Time.Before`. -/
def timeBefore (a b : GoTime) : Bool := a < b

/-- Error taxonomy of the system (spec section 7 and `k8s.io/apimachinery`
`errors`): NotFound, NotSupported, NotInstalled, EngineUnavailable, plus
uncategorized errors. -/
inductive Err where
  | notFound (name : String)
  | notSupported (product : String)
  | notInstalled (product : String)
  | engineUnavailable
  | other (msg : String)
deriving Repr, DecidableEq

/-- `errors.IsNotFound`: the NotFound classification predicate. -/
def Err.isNotFound : Err → Bool
  | .notFound _ => true
  | _ => false

/-- A Kubernetes node, restricted to the field the sources read
(`node.CreationTimestamp`). -/
structure Node where
  creationTimestamp : GoTime
deriving Repr, DecidableEq

/-- `localregistry.LocalRegistryHostingV1`: the `{Host, Help}` descriptor. -/
structure LocalRegistryHosting where
  host : String
  help : String
deriving Repr, DecidableEq

/-- `api.ClusterStatus`: the observed fields of a cluster. -/
structure ClusterStatus where
  creationTimestamp : GoTime := 0
  current : Bool := false
  localRegistryHosting : Option LocalRegistryHosting := none
deriving Repr, DecidableEq

/-- `api.Cluster`: desired fields plus observed status. -/
structure Cluster where
  name : String := ""
  product : String := ""
  minCPUs : Int := 0
  kubernetesVersion : String := ""
  registry : String := ""
  status : ClusterStatus := {}
deriving Repr, DecidableEq

/-- `api.RegistryStatus`. -/
structure RegistryStatus where
  creationTimestamp : GoTime := 0
  hostPort : Int := 0
  containerPort : Int := 0
  ipAddress : String := ""
  containerID : String := ""
  networks : List String := []
deriving Repr, DecidableEq

/-- `api.Registry`. -/
structure Registry where
  name : String := ""
  status : RegistryStatus := {}
deriving Repr, DecidableEq

/-- `clientcmdapi.Context`, restricted to the field the sources use. -/
structure KubeContext where
  cluster : String := ""
deriving Repr, DecidableEq

/-- Association-list lookup, modelling Go map read `m[k]`. -/
def mapGet {α : Type} : List (String × α) → String → Option α
  | [], _ => none
  | (k', v') :: rest, k => if k' = k then some v' else mapGet rest k

/-- Association-list update, modelling Go map write `m[k] = v`. -/
def mapSet {α : Type} : List (String × α) → String → α → List (String × α)
  | [], k, v => [(k, v)]
  | (k', v') :: rest, k, v =>
      if k' = k then (k, v) :: rest else (k', v') :: mapSet rest k v

/-!
## `Controller.client` (`pkg/cluster/cluster.go` lines 44-65)

The Kubernetes client type and the two external construction steps
(`clientcmd.NewDefaultClientConfig(...).ClientConfig()` and
`kubernetes.NewForConfig`) are abstract: the controller only stores and
returns clients.  The kube-config is abstract for the same reason: `client`
only passes it to the construction step.
-/

section ClientCache

variable {Config Client : Type}

/-- `Controller.client`: look the name up in the cache under the lock; on a
hit return the cached client; on a miss build a rest config from the
controller's kube-config and the name, build a client from it, cache it
under the name and return it.  Returns the new cache alongside the result
(the Go method mutates `c.clients` in place). -/
def clientStep (clientConfig : Config → String → Except Err Config)
    (newForConfig : Config → Except Err Client)
    (config : Config) (clients : List (String × Client)) (name : String) :
    Except Err Client × List (String × Client) :=
  match mapGet clients name with
  | some client => (.ok client, clients)
  | none =>
      match clientConfig config name with
      | .error e => (.error e, clients)
      | .ok restConfig =>
          match newForConfig restConfig with
          | .error e => (.error e, clients)
          | .ok client => (.ok client, mapSet clients name client)

end ClientCache

/-!
## `Controller.populateCluster` (`pkg/cluster/cluster.go` lines 67-88)

`c.client(cluster.Name)` and the node-list query are the two fallible
external steps; they are passed in as functions.  The timestamp loop is
translated verbatim: `minTime` starts at the zero time and is replaced by a
node's creation time whenever it is still zero or the node's time is
earlier.
-/

section Populate

variable {Client : Type}

/-- The `minTime` accumulation loop of `populateCluster`. -/
def minTimeLoop (nodes : List Node) : GoTime :=
  nodes.foldl
    (fun minTime node =>
      if timeIsZero minTime || timeBefore node.creationTimestamp minTime then
        node.creationTimestamp
      else minTime)
    0

/-- `Controller.populateCluster`: get the (cached) client for the cluster's
name, list the nodes, fold the minimum-time loop, and set
`Status.CreationTimestamp`.  Either external failure is returned unchanged
and the cluster is left untouched. -/
def populateCluster (clientFor : String → Except Err Client)
    (listNodes : Client → Except Err (List Node))
    (cluster : Cluster) : Except Err Cluster :=
  match clientFor cluster.name with
  | .error e => .error e
  | .ok client =>
      match listNodes client with
      | .error e => .error e
      | .ok nodes =>
          .ok { cluster with
                status := { cluster.status with creationTimestamp := minTimeLoop nodes } }

/-- The spec's description of the computed timestamp: the minimum creation
timestamp over all nodes (stated for comparison with `minTimeLoop`; for an
empty list it is the zero time). -/
def specMinCreation : List Node → GoTime
  | [] => 0
  | n :: rest => rest.foldl (fun acc node => min acc node.creationTimestamp) n.creationTimestamp

/-!
## `Controller.List` (`pkg/cluster/cluster.go` lines 90-106)

`productFromContext` lives outside the provided sources; `List` only calls
it on each context, so it is abstracted as a function parameter.  Iteration
over the Go contexts map is modelled as iteration over an association list.
For each context a cluster record is synthesized and appended, then
`populateCluster` is run on it; a population failure is logged and ignored,
leaving that entry with its default status.  `List` always returns a nil
error, modelled as the constant `none` second component.
-/

/-- The cluster record `List` synthesizes for one recorded context, before
status population. -/
def synthesizeCluster (productFromContext : KubeContext → String)
    (name : String) (ct : KubeContext) : Cluster :=
  { name := name, product := productFromContext ct }

/-- The loop body of `Controller.List` for one recorded context: synthesize
the cluster record, then run best-effort status population on it; a
population failure is logged and the entry keeps its default status. -/
def listEntry (clientFor : String → Except Err Client)
    (listNodes : Client → Except Err (List Node))
    (productFromContext : KubeContext → String)
    (name : String) (ct : KubeContext) : Cluster :=
  let cluster := synthesizeCluster productFromContext name ct
  match populateCluster clientFor listNodes cluster with
  | .ok populated => populated
  | .error _ => cluster

/-- `Controller.List`: one entry per recorded context; status population is
best-effort per entry; the error result is always nil. -/
def list (clientFor : String → Except Err Client)
    (listNodes : Client → Except Err (List Node))
    (productFromContext : KubeContext → String)
    (contexts : List (String × KubeContext)) :
    List Cluster × Option Err :=
  (contexts.map (fun p => listEntry clientFor listNodes productFromContext p.1 p.2),
   none)

end Populate

/-!
## Docker-Desktop settings reconciliation
(`fakeD4MClient.setK8sEnabled` lines 449-456, `fakeD4MClient.ensureMinCPU`
lines 458-466 of `pkg/cluster/cluster.go`)

The Go settings blob is `map[string]interface{}`; the virtualization
settings contract (spec section 6) uses at least the keys `cpu` (integer)
and `k8sEnabled` (boolean).  Values are modelled as a sum of the two types;
a Go type assertion on a value of the wrong shape panics, modelled as
`none`.
-/

/-- A value in the settings map: Go `interface{}` restricted to the types
the settings contract stores. -/
inductive SettingsVal where
  | int (i : Int)
  | bool (b : Bool)
deriving Repr, DecidableEq

/-- The settings blob `map[string]interface{}`. -/
abbrev Settings := List (String × SettingsVal)

/-- `setK8sEnabled(settings, desired)`: if the `k8sEnabled` entry exists and
is `true`, report no write and leave the settings alone; otherwise set it to
`true` and report a write.  A non-boolean entry makes the Go type assertion
panic (`none`). -/
def setK8sEnabled (settings : Settings) : Option (Settings × Bool) :=
  match mapGet settings "k8sEnabled" with
  | some (.bool enabled) =>
      if enabled then some (settings, false)
      else some (mapSet settings "k8sEnabled" (.bool true), true)
  | some (.int _) => none
  | none => some (mapSet settings "k8sEnabled" (.bool true), true)

/-- `ensureMinCPU(settings, desired)`: if the `cpu` entry exists and is at
least `desired`, report no write and leave the settings alone; otherwise set
it to `desired` and report a write.  A non-integer entry makes the Go type
assertion panic (`none`). -/
def ensureMinCPU (settings : Settings) (desired : Int) : Option (Settings × Bool) :=
  match mapGet settings "cpu" with
  | some (.int cpu) =>
      if cpu ≥ desired then some (settings, false)
      else some (mapSet settings "cpu" (.int desired), true)
  | some (.bool _) => none
  | none => some (mapSet settings "cpu" (.int desired), true)

/-!
## Output rendering (`pkg/cmd/get.go` lines 160-291)

`duration.ShortHumanDuration` is external (`k8s.io/apimachinery`); it is a
parameter mapping an elapsed duration to a string.  `runtime.Object` is the
sum of the object kinds the switch in `transformForOutput` distinguishes,
plus the table type it produces and an opaque constructor for every other
object kind.
-/

/-- `metav1.TableColumnDefinition`, restricted to the fields the sources
set. -/
structure TableColumnDefinition where
  name : String
  type : String
deriving Repr, DecidableEq

/-- `metav1.TableRow`: the cell values (all strings here). -/
structure TableRow where
  cells : List String
deriving Repr, DecidableEq

/-- `metav1.Table`, restricted to the fields the sources set. -/
structure Table where
  columnDefinitions : List TableColumnDefinition
  rows : List TableRow
deriving Repr, DecidableEq

/-- `runtime.Object` as the switch in `transformForOutput` sees it. -/
inductive RuntimeObject where
  | cluster (c : Cluster)
  | clusterList (cs : List Cluster)
  | registry (r : Registry)
  | registryList (rs : List Registry)
  | table (t : Table)
  | other (kind : String)
deriving Repr, DecidableEq

/-- The Age cell of a cluster row: `"unknown"` for a zero creation
timestamp, otherwise the rendered duration since `startTime`. -/
def clusterAgeCell (shortHumanDuration : Int → String) (startTime : GoTime)
    (c : Cluster) : String :=
  let cTime := c.status.creationTimestamp
  if timeIsZero cTime then "unknown"
  else shortHumanDuration (startTime - cTime)

/-- The Registry cell of a cluster row: the hosting descriptor's host, or
`"none"` when absent or empty. -/
def clusterRegistryCell (c : Cluster) : String :=
  let rHost :=
    match c.status.localRegistryHosting with
    | some lrh => lrh.host
    | none => ""
  if rHost = "" then "none" else rHost

/-- The Current cell of a cluster row: `"*"` for the current context. -/
def clusterCurrentCell (c : Cluster) : String :=
  if c.status.current then "*" else ""

/-- `GetOptions.clustersAsTable`: the five fixed columns and one row per
cluster. -/
def clustersAsTable (shortHumanDuration : Int → String) (startTime : GoTime)
    (clusters : List Cluster) : Table :=
  { columnDefinitions :=
      [{ name := "Current", type := "string" },
       { name := "Name", type := "string" },
       { name := "Product", type := "string" },
       { name := "Age", type := "string" },
       { name := "Registry", type := "string" }],
    rows := clusters.map (fun c =>
      { cells :=
          [clusterCurrentCell c,
           c.name,
           c.product,
           clusterAgeCell shortHumanDuration startTime c,
           clusterRegistryCell c] }) }

/-- `GetOptions.registriesAsTable`: the four fixed columns and one row per
registry. -/
def registriesAsTable (shortHumanDuration : Int → String) (startTime : GoTime)
    (registries : List Registry) : Table :=
  { columnDefinitions :=
      [{ name := "Name", type := "string" },
       { name := "Host Address", type := "int" },
       { name := "Container Address", type := "string" },
       { name := "Age", type := "string" }],
    rows := registries.map (fun r =>
      let age :=
        if timeIsZero r.status.creationTimestamp then "unknown"
        else shortHumanDuration (startTime - r.status.creationTimestamp)
      let hostAddress :=
        if r.status.hostPort ≠ 0 then "localhost:" ++ toString r.status.hostPort
        else "none"
      let containerAddress :=
        if r.status.containerPort ≠ 0 ∧ r.status.ipAddress ≠ "" then
          r.status.ipAddress ++ ":" ++ toString r.status.containerPort
        else "none"
      { cells := [r.name, hostAddress, containerAddress, age] }) }

/-- `GetOptions.transformForOutput`: the identity when an output flag is
specified; otherwise clusters and registries (single or list) are rendered
as tables and every other object passes through. -/
def transformForOutput (outputFlagSpecified : Bool)
    (shortHumanDuration : Int → String) (startTime : GoTime)
    (obj : RuntimeObject) : RuntimeObject :=
  if outputFlagSpecified then obj
  else
    match obj with
    | .registry r => .table (registriesAsTable shortHumanDuration startTime [r])
    | .registryList rs => .table (registriesAsTable shortHumanDuration startTime rs)
    | .cluster c => .table (clustersAsTable shortHumanDuration startTime [c])
    | .clusterList cs => .table (clustersAsTable shortHumanDuration startTime cs)
    | o => o

/-!
## Field-selector filtering, List with options, and Get

The version of `Controller.List` that takes a `ListOptions` with a
`FieldSelector`, and `Controller.Get`, are exercised by the tests in the
sources but their bodies are not among the provided files; they are modelled
from the spec below.
-/

/-- A field-selector operator: exact match (`=`/`==`) or not-equal (`!=`). -/
inductive SelectorOp where
  | eq
  | neq
deriving Repr, DecidableEq

/-- One requirement of a field selector, e.g. `product=microk8s`. -/
structure SelectorRequirement where
  field : String
  op : SelectorOp
  value : String
deriving Repr, DecidableEq

/-- Modelled from the spec: a field selector is a conjunction of
equality/inequality requirements over a fixed set of projected fields. -/
abbrev FieldSelector := List SelectorRequirement

/-- Modelled from the spec: the fixed projection of cluster fields the
selector can query (`name`, `product`). -/
def clusterFieldProjection (c : Cluster) (field : String) : Option String :=
  if field = "name" then some c.name
  else if field = "product" then some c.product
  else none

/-- Whether a cluster satisfies one selector requirement; an unknown field
matches nothing. -/
def matchesRequirement (c : Cluster) (r : SelectorRequirement) : Bool :=
  match clusterFieldProjection c r.field with
  | none => false
  | some v =>
      match r.op with
      | .eq => v == r.value
      | .neq => v != r.value

/-- Whether a cluster satisfies every requirement of a selector. -/
def matchesSelector (c : Cluster) (s : FieldSelector) : Bool :=
  s.all (matchesRequirement c)

/-- `cluster.ListOptions`. -/
structure ListOptions where
  fieldSelector : FieldSelector := []
deriving Repr, DecidableEq

section ListGet

variable {Client : Type}

/-- Modelled from the spec: `List(ctx, options)` is the enumeration of
`Controller.List` restricted to the entries matching the field selector; an
unmatched filter yields an empty result, not an error. -/
def listWithOptions (clientFor : String → Except Err Client)
    (listNodes : Client → Except Err (List Node))
    (productFromContext : KubeContext → String)
    (contexts : List (String × KubeContext))
    (options : ListOptions) : List Cluster × Option Err :=
  ((list clientFor listNodes productFromContext contexts).1.filter
     (fun c => matchesSelector c options.fieldSelector),
   none)

/-- Modelled from the spec: `Get(ctx, name)` is a filtered List of one,
failing with NotFound when `name` is not among the recorded contexts. -/
def get (clientFor : String → Except Err Client)
    (listNodes : Client → Except Err (List Node))
    (productFromContext : KubeContext → String)
    (contexts : List (String × KubeContext))
    (name : String) : Except Err Cluster :=
  match (listWithOptions clientFor listNodes productFromContext contexts
          { fieldSelector := [{ field := "name", op := .eq, value := name }] }).1 with
  | [] => .error (.notFound name)
  | c :: _ => .ok c

end ListGet

/-!
## `Controller.Apply`

The body of `Controller.Apply` is not among the provided files (only its
tests are); the reconciliation sequence is modelled from spec section 4.1.
Side effects on the backend adapter and the registry coordinator are
recorded as an event trace.
-/

/-- An observable side effect of the reconciliation sequence. -/
inductive ApplyEvent where
  | deleteCluster (name : String)
  | info (msg : String)
  | registryApply (name : String)
  | createCluster (name : String)
deriving Repr, DecidableEq

/-- The informational message emitted before a version-triggered recreate. -/
def versionMismatchMessage (name want current : String) : String :=
  "Deleting cluster " ++ name ++ " because desired Kubernetes version (" ++
    want ++ ") does not match current (" ++ current ++ ")"

/-- Modelled from the spec: the creation tail of Apply (step 7) — realize
the referenced registry through the coordinator first, if any, then call the
adapter's Create. -/
def applyCreateEvents (desired : Cluster) (name : String) : List ApplyEvent :=
  (if desired.registry ≠ "" then [ApplyEvent.registryApply desired.registry] else [])
    ++ [ApplyEvent.createCluster name]

/-- Modelled from the spec: `Controller.Apply` (section 4.1).  `defaultName`
is the product-specific canonical-name convention (step 1); `registered` is
the set of products with a backend adapter (step 2); `installed` is the
adapter's install check (step 3); `observed` maps each existing cluster name
to its observed Kubernetes version (step 5).  Steps 6-7: an existing cluster
whose observed version differs from a requested `KubernetesVersion` is
deleted with an informational message and recreated; an existing matching
cluster causes no backend calls; a missing cluster is created, realizing its
registry first.  The machine-controller delegation of step 4 and the final
status population of step 8 are outside the claims settled here and are not
modelled. -/
def apply (defaultName : String → String)
    (registered : List String) (installed : String → Bool)
    (observed : List (String × String))
    (desired : Cluster) : Except Err (List ApplyEvent × Cluster) :=
  let name := if desired.name = "" then defaultName desired.product else desired.name
  if desired.product ∉ registered then .error (.notSupported desired.product)
  else if ¬ installed desired.product then .error (.notInstalled desired.product)
  else
    let resolved := { desired with name := name }
    match mapGet observed name with
    | some haveVersion =>
        if desired.kubernetesVersion ≠ "" ∧ desired.kubernetesVersion ≠ haveVersion then
          .ok ([ApplyEvent.deleteCluster name,
                ApplyEvent.info
                  (versionMismatchMessage name desired.kubernetesVersion haveVersion)]
                ++ applyCreateEvents desired name,
               resolved)
        else .ok ([], resolved)
    | none => .ok (applyCreateEvents desired name, resolved)

/-!
## Theorems
-/

theorem mapGet_mapSet_self {α : Type} (l : List (String × α)) (k : String) (v : α) :
    mapGet (mapSet l k v) k = some v := by
  induction l with
  | nil => simp [mapSet, mapGet]
  | cons hd tl ih =>
      obtain ⟨k', v'⟩ := hd
      by_cases h : k' = k
      · simp [mapSet, mapGet, h]
      · simp [mapSet, mapGet, h, ih]

theorem mapGet_mapSet_ne {α : Type} (l : List (String × α)) (k k' : String) (v : α)
    (h : k' ≠ k) : mapGet (mapSet l k v) k' = mapGet l k' := by
  induction l with
  | nil => simp [mapSet, mapGet, Ne.symm h]
  | cons hd tl ih =>
      obtain ⟨k0, v0⟩ := hd
      by_cases h0 : k0 = k
      · subst h0
        simp [mapSet, mapGet, Ne.symm h]
      · by_cases h1 : k0 = k'
        · simp [mapSet, mapGet, h0, h1, h]
        · simp [mapSet, mapGet, h0, h1, ih]

/-- `populateCluster` only rewrites the status: the identity and desired
fields of its argument are preserved on success. -/
theorem populateCluster_ok_fields {Client : Type}
    (clientFor : String → Except Err Client)
    (listNodes : Client → Except Err (List Node))
    (cluster c : Cluster)
    (h : populateCluster clientFor listNodes cluster = .ok c) :
    c.name = cluster.name ∧ c.product = cluster.product ∧
    c.kubernetesVersion = cluster.kubernetesVersion ∧
    c.registry = cluster.registry := by
  unfold populateCluster at h
  match h1 : clientFor cluster.name with
  | .error e => simp [h1] at h
  | .ok client =>
      match h2 : listNodes client with
      | .error e => simp [h1, h2] at h
      | .ok nodes =>
          simp [h1, h2] at h
          rw [← h]
          exact ⟨rfl, rfl, rfl, rfl⟩

/-- Each `List` entry keeps the name of the recorded context it was
synthesized from. -/
theorem listEntry_name {Client : Type}
    (clientFor : String → Except Err Client)
    (listNodes : Client → Except Err (List Node))
    (productFromContext : KubeContext → String)
    (name : String) (ct : KubeContext) :
    (listEntry clientFor listNodes productFromContext name ct).name = name := by
  unfold listEntry synthesizeCluster
  cases h : populateCluster clientFor listNodes
      { name := name, product := productFromContext ct } with
  | ok populated =>
      simp only [h]
      simpa using (populateCluster_ok_fields _ _ _ _ h).1
  | error e => simp [h]

/-- Claim C1: `Controller.List` returns one entry per recorded context (in
order, keeping each context's name) and a nil error, even when status
population fails for some contexts: the entry for a failing context is still
included with its default (zero) status, and an entry whose population
succeeds carries the populated status. -/
theorem C1_list_partial_failure {Client : Type}
    (clientFor : String → Except Err Client)
    (listNodes : Client → Except Err (List Node))
    (productFromContext : KubeContext → String)
    (contexts : List (String × KubeContext)) :
    (list clientFor listNodes productFromContext contexts).2 = none ∧
    (list clientFor listNodes productFromContext contexts).1.length =
      contexts.length ∧
    (∀ i (hi : i < contexts.length)
        (hi' : i < (list clientFor listNodes productFromContext contexts).1.length),
      ((list clientFor listNodes productFromContext contexts).1.get ⟨i, hi'⟩).name =
          (contexts.get ⟨i, hi⟩).1 ∧
      (∀ e, populateCluster clientFor listNodes
              (synthesizeCluster productFromContext
                (contexts.get ⟨i, hi⟩).1 (contexts.get ⟨i, hi⟩).2) = .error e →
          (list clientFor listNodes productFromContext contexts).1.get ⟨i, hi'⟩ =
            synthesizeCluster productFromContext
              (contexts.get ⟨i, hi⟩).1 (contexts.get ⟨i, hi⟩).2) ∧
      (∀ c, populateCluster clientFor listNodes
              (synthesizeCluster productFromContext
                (contexts.get ⟨i, hi⟩).1 (contexts.get ⟨i, hi⟩).2) = .ok c →
          (list clientFor listNodes productFromContext contexts).1.get ⟨i, hi'⟩ = c)) := by
  refine ⟨rfl, by simp [list], ?_⟩
  intro i hi hi'
  have hget : (list clientFor listNodes productFromContext contexts).1.get ⟨i, hi'⟩ =
      listEntry clientFor listNodes productFromContext
        (contexts.get ⟨i, hi⟩).1 (contexts.get ⟨i, hi⟩).2 := by
    simp [list, List.get_eq_getElem, List.getElem_map]
  refine ⟨?_, ?_, ?_⟩
  · rw [hget]
    exact listEntry_name _ _ _ _ _
  · intro e he
    rw [hget]
    simp only [List.get_eq_getElem] at he
    simp [listEntry, he]
  · intro c hc
    rw [hget]
    simp only [List.get_eq_getElem] at hc
    simp [listEntry, hc]

/-- Concrete client lookup for the Claim C1 witness: the `docker-desktop`
context is unreachable, the others respond. -/
def c1clientFor : String → Except Err Unit :=
  fun name =>
    if name = "docker-desktop" then .error (.other "connection refused") else .ok ()

/-- Concrete node query for the Claim C1 witness: one node created at time
7. -/
def c1listNodes : Unit → Except Err (List Node) :=
  fun _ => .ok [{ creationTimestamp := 7 }]

/-- Concrete product inference for the Claim C1 witness. -/
def c1productFromContext : KubeContext → String := fun ct => ct.cluster

/-- Recorded contexts for the Claim C1 witness. -/
def c1contexts : List (String × KubeContext) :=
  [("docker-desktop", { cluster := "docker-desktop" }),
   ("microk8s", { cluster := "microk8s" })]

/-- Claim C1 witness: with `docker-desktop` failing to populate, List still
returns both entries and a nil error; the failing entry carries the default
status and the other the populated one. -/
theorem C1_list_partial_failure_witness :
    (list c1clientFor c1listNodes c1productFromContext c1contexts).2 = none ∧
    (list c1clientFor c1listNodes c1productFromContext c1contexts).1.length = 2 ∧
    (list c1clientFor c1listNodes c1productFromContext c1contexts).1.get
        ⟨0, by decide⟩ =
      { name := "docker-desktop", product := "docker-desktop" } ∧
    (list c1clientFor c1listNodes c1productFromContext c1contexts).1.get
        ⟨1, by decide⟩ =
      { name := "microk8s", product := "microk8s",
        status := { creationTimestamp := 7 } } := by
  have h := C1_list_partial_failure c1clientFor c1listNodes c1productFromContext
    c1contexts
  refine ⟨h.1, ?_, ?_, ?_⟩
  · rw [h.2.1]
    rfl
  · exact (h.2.2 0 (by decide) (by decide)).2.1 (.other "connection refused") rfl
  · exact (h.2.2 1 (by decide) (by decide)).2.2
      { name := "microk8s", product := "microk8s",
        status := { creationTimestamp := 7 } } rfl

/-- A singleton `product=x` selector matches exactly the clusters whose
product is `x`. -/
theorem matchesSelector_product_eq (c : Cluster) (x : String) :
    matchesSelector c [{ field := "product", op := .eq, value := x }] =
      (c.product == x) := by
  simp [matchesSelector, matchesRequirement, clusterFieldProjection]

/-- A singleton `name=x` selector matches exactly the clusters whose name is
`x`. -/
theorem matchesSelector_name_eq (c : Cluster) (x : String) :
    matchesSelector c [{ field := "name", op := .eq, value := x }] =
      (c.name == x) := by
  simp [matchesSelector, matchesRequirement, clusterFieldProjection]

/-- Claim C5: List with a field selector over the projected fields: with
`product=x` the result is exactly the entries whose product equals `x`, the
error result is always nil, and a selector matching no entry yields an empty
result. -/
theorem C5_list_field_selector {Client : Type}
    (clientFor : String → Except Err Client)
    (listNodes : Client → Except Err (List Node))
    (productFromContext : KubeContext → String)
    (contexts : List (String × KubeContext)) :
    (∀ (x : String) (c : Cluster),
        c ∈ (listWithOptions clientFor listNodes productFromContext contexts
              { fieldSelector :=
                  [{ field := "product", op := .eq, value := x }] }).1 ↔
          (c ∈ (list clientFor listNodes productFromContext contexts).1 ∧
           c.product = x)) ∧
    (∀ options : ListOptions,
        (listWithOptions clientFor listNodes productFromContext contexts
          options).2 = none) ∧
    (∀ options : ListOptions,
        (∀ c ∈ (list clientFor listNodes productFromContext contexts).1,
            matchesSelector c options.fieldSelector = false) →
        (listWithOptions clientFor listNodes productFromContext contexts
          options).1 = []) := by
  refine ⟨?_, fun _ => rfl, ?_⟩
  · intro x c
    simp [listWithOptions, List.mem_filter, matchesSelector_product_eq]
  · intro options hall
    simp only [listWithOptions, List.filter_eq_nil_iff]
    intro c hc
    simp [hall c hc]

/-- Claim C5 witness: on the recorded contexts `docker-desktop` and
`microk8s`, the selector `product=microk8s` returns the `microk8s` entry and
the selector `product=kind` returns an empty, error-free result. -/
theorem C5_list_field_selector_witness :
    ({ name := "microk8s", product := "microk8s",
       status := { creationTimestamp := 7 } } : Cluster) ∈
      (listWithOptions c1clientFor c1listNodes c1productFromContext c1contexts
        { fieldSelector :=
            [{ field := "product", op := .eq, value := "microk8s" }] }).1 ∧
    (listWithOptions c1clientFor c1listNodes c1productFromContext c1contexts
      { fieldSelector :=
          [{ field := "product", op := .eq, value := "kind" }] }).1 = [] ∧
    (listWithOptions c1clientFor c1listNodes c1productFromContext c1contexts
      { fieldSelector :=
          [{ field := "product", op := .eq, value := "kind" }] }).2 = none := by
  have h := C5_list_field_selector c1clientFor c1listNodes c1productFromContext
    c1contexts
  refine ⟨?_, ?_, h.2.1 _⟩
  · exact (h.1 "microk8s" _).mpr ⟨by decide, rfl⟩
  · exact h.2.2 _ (by decide)

/-- Every List entry's name is the name of some recorded context. -/
theorem list_mem_context_name {Client : Type}
    (clientFor : String → Except Err Client)
    (listNodes : Client → Except Err (List Node))
    (productFromContext : KubeContext → String)
    (contexts : List (String × KubeContext)) (c : Cluster)
    (hc : c ∈ (list clientFor listNodes productFromContext contexts).1) :
    ∃ p ∈ contexts, p.1 = c.name := by
  simp only [list, List.mem_map] at hc
  obtain ⟨p, hp, hpc⟩ := hc
  refine ⟨p, hp, ?_⟩
  rw [← hpc]
  exact (listEntry_name clientFor listNodes productFromContext p.1 p.2).symm

/-- Claim C6: `Get` on a name not among the recorded contexts fails with a
NotFound-classified error; on a recorded name it returns a cluster of that
name without error. -/
theorem C6_get_not_found {Client : Type}
    (clientFor : String → Except Err Client)
    (listNodes : Client → Except Err (List Node))
    (productFromContext : KubeContext → String)
    (contexts : List (String × KubeContext)) (name : String) :
    ((∀ p ∈ contexts, p.1 ≠ name) →
        get clientFor listNodes productFromContext contexts name =
          .error (.notFound name) ∧
        Err.isNotFound (.notFound name) = true) ∧
    ((∃ p ∈ contexts, p.1 = name) →
        ∃ c, get clientFor listNodes productFromContext contexts name = .ok c ∧
          c.name = name) := by
  constructor
  · intro habsent
    have hfil : (listWithOptions clientFor listNodes productFromContext contexts
        { fieldSelector := [{ field := "name", op := .eq, value := name }] }).1 = [] := by
      simp only [listWithOptions, List.filter_eq_nil_iff]
      intro c hc
      obtain ⟨p, hp, hpn⟩ := list_mem_context_name clientFor listNodes
        productFromContext contexts c hc
      have : c.name ≠ name := by
        rw [← hpn]
        exact habsent p hp
      simp [matchesSelector_name_eq, this]
    refine ⟨?_, rfl⟩
    simp [get, hfil]
  · rintro ⟨p, hp, hpn⟩
    have hmem : listEntry clientFor listNodes productFromContext p.1 p.2 ∈
        (listWithOptions clientFor listNodes productFromContext contexts
          { fieldSelector := [{ field := "name", op := .eq, value := name }] }).1 := by
      simp only [listWithOptions, List.mem_filter]
      constructor
      · simp only [list, List.mem_map]
        exact ⟨p, hp, rfl⟩
      · simp [matchesSelector_name_eq, listEntry_name, hpn]
    match hfil : (listWithOptions clientFor listNodes productFromContext contexts
        { fieldSelector := [{ field := "name", op := .eq, value := name }] }).1 with
    | [] =>
        rw [hfil] at hmem
        exact absurd hmem (by simp)
    | c :: rest =>
        have hcmem : c ∈ (listWithOptions clientFor listNodes productFromContext
            contexts { fieldSelector :=
              [{ field := "name", op := .eq, value := name }] }).1 := by
          rw [hfil]
          exact List.mem_cons_self c rest
        have hcname : c.name = name := by
          simp only [listWithOptions, List.mem_filter,
            matchesSelector_name_eq] at hcmem
          exact eq_of_beq hcmem.2
        refine ⟨c, ?_, hcname⟩
        simp [get, hfil]

/-- Claim C6 witness: `Get` on the unrecorded name `dunkees` fails NotFound;
`Get` on the recorded name `microk8s` returns a cluster named `microk8s`. -/
theorem C6_get_not_found_witness :
    get c1clientFor c1listNodes c1productFromContext c1contexts "dunkees" =
      .error (.notFound "dunkees") ∧
    Err.isNotFound (.notFound "dunkees") = true ∧
    ((get c1clientFor c1listNodes c1productFromContext c1contexts
        "microk8s").toOption.map Cluster.name) = some "microk8s" := by
  have h := C6_get_not_found c1clientFor c1listNodes c1productFromContext
    c1contexts "dunkees"
  have h2 := C6_get_not_found c1clientFor c1listNodes c1productFromContext
    c1contexts "microk8s"
  obtain ⟨c, hc, hn⟩ := h2.2 ⟨("microk8s", { cluster := "microk8s" }), by decide, rfl⟩
  refine ⟨(h.1 (by decide)).1, (h.1 (by decide)).2, ?_⟩
  rw [hc]
  simp [Except.toOption, hn]

/-- Claim C3: `ensureMinCPU` leaves the settings unchanged and signals no
write when the current `cpu` value is at least the desired one (the
allocation is never lowered); otherwise it sets `cpu` to exactly the desired
value and signals that a write is required. -/
theorem C3_ensureMinCPU_monotonic (settings : Settings) (desired : Int) :
    (∀ cpu : Int, mapGet settings "cpu" = some (.int cpu) → cpu ≥ desired →
        ensureMinCPU settings desired = some (settings, false)) ∧
    (∀ cpu : Int, mapGet settings "cpu" = some (.int cpu) → cpu < desired →
        ensureMinCPU settings desired =
          some (mapSet settings "cpu" (.int desired), true)) ∧
    (mapGet settings "cpu" = none →
        ensureMinCPU settings desired =
          some (mapSet settings "cpu" (.int desired), true)) ∧
    (∀ s' w, ensureMinCPU settings desired = some (s', w) → w = true →
        mapGet s' "cpu" = some (.int desired)) := by
  refine ⟨?_, ?_, ?_, ?_⟩
  · intro cpu hget hge
    simp [ensureMinCPU, hget, hge]
  · intro cpu hget hlt
    simp [ensureMinCPU, hget, not_le.mpr hlt]
  · intro hget
    simp [ensureMinCPU, hget]
  · intro s' w heq hw
    subst hw
    unfold ensureMinCPU at heq
    match hget : mapGet settings "cpu" with
    | some (.int cpu) =>
        rw [hget] at heq
        by_cases hge : cpu ≥ desired
        · simp [hge] at heq
        · simp [hge] at heq
          rw [← heq]
          exact mapGet_mapSet_self settings "cpu" (.int desired)
    | some (.bool b) => rw [hget] at heq; simp at heq
    | none =>
        rw [hget] at heq
        simp at heq
        rw [← heq]
        exact mapGet_mapSet_self settings "cpu" (.int desired)

/-- Claim C3 witness: at current allocation 3 and desired 1, no write is
signalled and the allocation stays 3; at current 1 and desired 3, a write to
exactly 3 is signalled. -/
theorem C3_ensureMinCPU_monotonic_witness :
    ensureMinCPU [("cpu", .int 3)] 1 = some ([("cpu", .int 3)], false) ∧
    ensureMinCPU [("cpu", .int 1)] 3 = some ([("cpu", .int 3)], true) := by
  constructor
  · exact (C3_ensureMinCPU_monotonic [("cpu", .int 3)] 1).1 3 (by decide) (by decide)
  · exact (C3_ensureMinCPU_monotonic [("cpu", .int 1)] 3).2.1 1 (by decide) (by decide)

/-- Claim C4: `setK8sEnabled` is idempotent: an already-true `k8sEnabled`
flag yields no write and unchanged settings; otherwise the flag is set to
`true` with a write signalled, after which a second application signals no
further write. -/
theorem C4_setK8sEnabled_idempotent (settings : Settings) :
    (mapGet settings "k8sEnabled" = some (.bool true) →
        setK8sEnabled settings = some (settings, false)) ∧
    ((mapGet settings "k8sEnabled" = none ∨
      mapGet settings "k8sEnabled" = some (.bool false)) →
        setK8sEnabled settings =
          some (mapSet settings "k8sEnabled" (.bool true), true)) ∧
    (∀ s' w, setK8sEnabled settings = some (s', w) →
        setK8sEnabled s' = some (s', false)) := by
  refine ⟨?_, ?_, ?_⟩
  · intro hget
    simp [setK8sEnabled, hget]
  · rintro (hget | hget) <;> simp [setK8sEnabled, hget]
  · intro s' w heq
    have hs' : mapGet s' "k8sEnabled" = some (.bool true) := by
      unfold setK8sEnabled at heq
      match hget : mapGet settings "k8sEnabled" with
      | some (.bool true) =>
          rw [hget] at heq
          simp at heq
          rw [← heq.1]
          exact hget
      | some (.bool false) =>
          rw [hget] at heq
          simp at heq
          rw [← heq.1]
          exact mapGet_mapSet_self settings "k8sEnabled" (.bool true)
      | some (.int i) => rw [hget] at heq; simp at heq
      | none =>
          rw [hget] at heq
          simp at heq
          rw [← heq.1]
          exact mapGet_mapSet_self settings "k8sEnabled" (.bool true)
    simp [setK8sEnabled, hs']

/-- Claim C4 witness: with the flag unset, one application writes it to
`true` and a second application on the result signals no further write. -/
theorem C4_setK8sEnabled_idempotent_witness :
    setK8sEnabled [("cpu", .int 1)] =
      some ([("cpu", .int 1), ("k8sEnabled", .bool true)], true) ∧
    setK8sEnabled [("cpu", .int 1), ("k8sEnabled", .bool true)] =
      some ([("cpu", .int 1), ("k8sEnabled", .bool true)], false) := by
  constructor
  · exact (C4_setK8sEnabled_idempotent [("cpu", .int 1)]).2.1 (Or.inl (by decide))
  · exact (C4_setK8sEnabled_idempotent [("cpu", .int 1)]).2.2
      [("cpu", .int 1), ("k8sEnabled", .bool true)] true
      ((C4_setK8sEnabled_idempotent [("cpu", .int 1)]).2.1 (Or.inl (by decide)))

/-- Claim C2: when a cluster with the desired name exists and the desired
`KubernetesVersion` is set and differs from the observed version, Apply
emits the adapter Delete, the exact informational mismatch message, and the
adapter Create, in that order, and returns without error. -/
theorem C2_apply_version_recreate (defaultName : String → String)
    (registered : List String) (installed : String → Bool)
    (observed : List (String × String)) (desired : Cluster) (current : String)
    (hreg : desired.product ∈ registered)
    (hinst : installed desired.product = true)
    (hname : desired.name ≠ "")
    (hobs : mapGet observed desired.name = some current)
    (hver : desired.kubernetesVersion ≠ "")
    (hdiff : desired.kubernetesVersion ≠ current) :
    apply defaultName registered installed observed desired =
      .ok ([ApplyEvent.deleteCluster desired.name,
            ApplyEvent.info
              (versionMismatchMessage desired.name desired.kubernetesVersion current)]
             ++ applyCreateEvents desired desired.name,
           desired) := by
  simp [apply, hname, hreg, hinst, hobs, hver, hdiff]

/-- Claim C2 witness: applying a minikube spec at version v1.15.0 over an
observed v1.14.0 emits Delete, the exact message, then Create, without
error. -/
theorem C2_apply_version_recreate_witness :
    apply (fun _ => "minikube") ["minikube"] (fun _ => true)
        [("minikube", "v1.14.0")]
        { name := "minikube", product := "minikube",
          kubernetesVersion := "v1.15.0" } =
      .ok ([ApplyEvent.deleteCluster "minikube",
            ApplyEvent.info ("Deleting cluster minikube because desired " ++
              "Kubernetes version (v1.15.0) does not match current (v1.14.0)"),
            ApplyEvent.createCluster "minikube"],
           { name := "minikube", product := "minikube",
             kubernetesVersion := "v1.15.0" }) := by
  have h := C2_apply_version_recreate (fun _ => "minikube") ["minikube"]
    (fun _ => true) [("minikube", "v1.14.0")]
    { name := "minikube", product := "minikube", kubernetesVersion := "v1.15.0" }
    "v1.14.0" (by decide) rfl (by decide) (by decide) (by decide) (by decide)
  rw [h]
  rfl

/-- On nodes without zero timestamps, the `minTime` accumulation step agrees
with the running minimum. -/
theorem foldl_minTime_eq_min (rest : List Node) :
    ∀ acc : GoTime, acc ≠ 0 → (∀ n ∈ rest, n.creationTimestamp ≠ 0) →
    rest.foldl
      (fun minTime node =>
        if timeIsZero minTime || timeBefore node.creationTimestamp minTime then
          node.creationTimestamp
        else minTime) acc =
    rest.foldl (fun acc node => min acc node.creationTimestamp) acc := by
  induction rest with
  | nil => intro acc _ _; rfl
  | cons n rest ih =>
      intro acc hacc hz
      have hz0 : timeIsZero acc = false := by
        simp [timeIsZero, hacc]
      have hstep :
          (if timeIsZero acc || timeBefore n.creationTimestamp acc then
            n.creationTimestamp else acc) = min acc n.creationTimestamp := by
        rw [hz0, Bool.false_or]
        by_cases h : n.creationTimestamp < acc
        · rw [if_pos (by simpa [timeBefore] using h)]
          exact (min_eq_right (le_of_lt h)).symm
        · rw [if_neg (by simpa [timeBefore] using h)]
          exact (min_eq_left (le_of_not_lt h)).symm
      simp only [List.foldl_cons, hstep]
      apply ih
      · rcases min_cases acc n.creationTimestamp with ⟨heq, _⟩ | ⟨heq, _⟩
        · rw [heq]; exact hacc
        · rw [heq]; exact hz n (List.mem_cons_self n rest)
      · intro m hm
        exact hz m (List.mem_cons_of_mem n hm)

/-- On a non-empty node list without zero timestamps, the `minTime` loop
computes the minimum creation timestamp. -/
theorem minTimeLoop_eq_specMin (nodes : List Node) (hne : nodes ≠ [])
    (hz : ∀ n ∈ nodes, n.creationTimestamp ≠ 0) :
    minTimeLoop nodes = specMinCreation nodes := by
  match nodes with
  | [] => exact absurd rfl hne
  | n :: rest =>
      have h0 : (if timeIsZero (0 : GoTime) ||
            timeBefore n.creationTimestamp 0 then n.creationTimestamp
          else (0 : GoTime)) = n.creationTimestamp := by
        simp [timeIsZero]
      simp only [minTimeLoop, List.foldl_cons, h0, specMinCreation]
      exact foldl_minTime_eq_min rest n.creationTimestamp
        (hz n (List.mem_cons_self n rest))
        (fun m hm => hz m (List.mem_cons_of_mem n hm))

/-- Concrete client lookup for the Claim C7 theorems: always succeeds. -/
def c7clientFor : String → Except Err Unit := fun _ => .ok ()

/-- Node query for the Claim C7 counterexample: a node with the zero
creation timestamp followed by one created at time 5. -/
def c7listNodesZero : Unit → Except Err (List Node) :=
  fun _ => .ok [{ creationTimestamp := 0 }, { creationTimestamp := 5 }]

/-- Node query for the Claim C7 witness: nodes created at times 5 and 3. -/
def c7listNodesGood : Unit → Except Err (List Node) :=
  fun _ => .ok [{ creationTimestamp := 5 }, { creationTimestamp := 3 }]

/-- Failing node query for the Claim C7 witness. -/
def c7listNodesErr : Unit → Except Err (List Node) :=
  fun _ => .error (.other "nodes unavailable")

/-- Claim C7 counterexample: on the node list `[zero, 5]` the code sets
`Status.CreationTimestamp` to 5, but the minimum creation timestamp over all
nodes is the zero time (the zero value is `Before` every positive time), so
the computed value is not the minimum. -/
theorem C7_populate_min_counterexample :
    populateCluster c7clientFor c7listNodesZero { name := "kind-kind" } =
      .ok { name := "kind-kind", status := { creationTimestamp := 5 } } ∧
    specMinCreation
      [{ creationTimestamp := 0 }, { creationTimestamp := 5 }] = 0 ∧
    (5 : GoTime) ≠ 0 := by
  refine ⟨rfl, ?_, by decide⟩
  norm_num [specMinCreation, min_def]

/-- Claim C7 (amended): `populateCluster` returns either external error
unchanged (leaving the cluster untouched), and on a non-empty node list in
which no node carries the zero creation timestamp it sets
`Status.CreationTimestamp` to the minimum creation timestamp over all nodes
(a zero node timestamp is treated as an unset accumulator and can make the
result deviate from the minimum). -/
theorem C7_populate_min_creation {Client : Type}
    (clientFor : String → Except Err Client)
    (listNodes : Client → Except Err (List Node)) (c : Cluster) :
    (∀ e, clientFor c.name = .error e →
        populateCluster clientFor listNodes c = .error e) ∧
    (∀ cl e, clientFor c.name = .ok cl → listNodes cl = .error e →
        populateCluster clientFor listNodes c = .error e) ∧
    (∀ cl nodes, clientFor c.name = .ok cl → listNodes cl = .ok nodes →
        nodes ≠ [] → (∀ n ∈ nodes, n.creationTimestamp ≠ 0) →
        populateCluster clientFor listNodes c =
          .ok { c with status :=
                { c.status with creationTimestamp := specMinCreation nodes } }) := by
  refine ⟨?_, ?_, ?_⟩
  · intro e he
    simp [populateCluster, he]
  · intro cl e hcl he
    simp [populateCluster, hcl, he]
  · intro cl nodes hcl hn hne hz
    simp [populateCluster, hcl, hn, minTimeLoop_eq_specMin nodes hne hz]

/-- Claim C7 witness: on nodes created at times 5 and 3 the populated
timestamp is the minimum 3; a failing node query returns the error
unchanged. -/
theorem C7_populate_min_creation_witness :
    populateCluster c7clientFor c7listNodesGood { name := "kind-kind" } =
      .ok { name := "kind-kind", status := { creationTimestamp := 3 } } ∧
    populateCluster c7clientFor c7listNodesErr { name := "kind-kind" } =
      .error (.other "nodes unavailable") := by
  have h := C7_populate_min_creation c7clientFor c7listNodesGood
    ({ name := "kind-kind" } : Cluster)
  have h2 := C7_populate_min_creation c7clientFor c7listNodesErr
    ({ name := "kind-kind" } : Cluster)
  constructor
  · have hm := h.2.2 () [{ creationTimestamp := 5 }, { creationTimestamp := 3 }]
      rfl rfl (by decide) (by decide)
    have hmin : specMinCreation
        [{ creationTimestamp := 5 }, { creationTimestamp := 3 }] = 3 := by
      norm_num [specMinCreation, min_def]
    rw [hmin] at hm
    exact hm
  · exact h2.2.1 () (.other "nodes unavailable") rfl rfl

/-- Claim C8: the client cache returns the cached client on a hit without
reconstruction and independently of the current configuration; on a miss it
constructs the client and stores it under the name; and an entry, once set,
is never replaced or removed by a later call. -/
theorem C8_client_cache {Config Client : Type}
    (clientConfig : Config → String → Except Err Config)
    (newForConfig : Config → Except Err Client)
    (clients : List (String × Client)) (name : String) :
    (∀ cl, mapGet clients name = some cl →
        ∀ config : Config,
          clientStep clientConfig newForConfig config clients name =
            (.ok cl, clients)) ∧
    (∀ config restConfig client,
        mapGet clients name = none →
        clientConfig config name = .ok restConfig →
        newForConfig restConfig = .ok client →
        clientStep clientConfig newForConfig config clients name =
          (.ok client, mapSet clients name client) ∧
        mapGet (mapSet clients name client) name = some client) ∧
    (∀ config n cl, mapGet clients n = some cl →
        mapGet (clientStep clientConfig newForConfig config clients name).2 n =
          some cl) := by
  refine ⟨?_, ?_, ?_⟩
  · intro cl hcl config
    simp [clientStep, hcl]
  · intro config restConfig client hmiss hcc hnfc
    exact ⟨by simp [clientStep, hmiss, hcc, hnfc],
      mapGet_mapSet_self clients name client⟩
  · intro config n cl hcl
    unfold clientStep
    cases hm : mapGet clients name with
    | some c0 =>
        simp only [hm]
        exact hcl
    | none =>
        simp only [hm]
        cases hcc : clientConfig config name with
        | error e =>
            simp only [hcc]
            exact hcl
        | ok restConfig =>
            simp only [hcc]
            cases hnfc : newForConfig restConfig with
            | error e =>
                simp only [hnfc]
                exact hcl
            | ok client =>
                simp only [hnfc]
                have hne : n ≠ name := by
                  intro heq
                  rw [heq, hm] at hcl
                  exact absurd hcl (by simp)
                rw [mapGet_mapSet_ne clients name n client hne]
                exact hcl

/-- Claim C8 witness: a hit returns the cached client with the cache
unchanged for two different configurations; a miss constructs, returns and
caches the new client; and an existing entry survives a later miss on
another name. -/
theorem C8_client_cache_witness :
    clientStep (fun cfg n => .ok (cfg ++ n)) (fun s => .ok s.length)
      "cfgA" [("microk8s", 3)] "microk8s" = (.ok 3, [("microk8s", 3)]) ∧
    clientStep (fun cfg n => .ok (cfg ++ n)) (fun s => .ok s.length)
      "cfgB" [("microk8s", 3)] "microk8s" = (.ok 3, [("microk8s", 3)]) ∧
    clientStep (fun cfg n => .ok (cfg ++ n)) (fun s => .ok s.length)
      "cfgA" [("microk8s", 3)] "kind-kind" =
      (.ok 13, [("microk8s", 3), ("kind-kind", 13)]) ∧
    mapGet (clientStep (fun cfg n => .ok (cfg ++ n)) (fun s => .ok s.length)
      "cfgA" [("microk8s", 3)] "kind-kind").2 "microk8s" = some 3 := by
  have h := C8_client_cache (fun cfg n => .ok (cfg ++ n))
    (fun s : String => .ok s.length) [("microk8s", 3)] "microk8s"
  have h2 := C8_client_cache (fun cfg n => .ok (cfg ++ n))
    (fun s : String => .ok s.length) [("microk8s", 3)] "kind-kind"
  refine ⟨h.1 3 (by decide) "cfgA", h.1 3 (by decide) "cfgB", ?_, ?_⟩
  · exact (h2.2.1 "cfgA" "cfgAkind-kind" 13 (by decide) rfl rfl).1
  · exact h2.2.2 "cfgA" "microk8s" 3 (by decide)

/-- Claim C9: on an empty node list `populateCluster` leaves the creation
timestamp at the zero time, and the cluster table renders a zero creation
timestamp's Age cell as the literal string `"unknown"`, never as a computed
age. -/
theorem C9_empty_nodes_unknown_age {Client : Type}
    (clientFor : String → Except Err Client)
    (listNodes : Client → Except Err (List Node)) (c : Cluster) :
    (∀ cl, clientFor c.name = .ok cl → listNodes cl = .ok [] →
        populateCluster clientFor listNodes c =
          .ok { c with status := { c.status with creationTimestamp := 0 } }) ∧
    (∀ (shd : Int → String) (startTime : GoTime) (c' : Cluster),
        c'.status.creationTimestamp = 0 →
        clusterAgeCell shd startTime c' = "unknown") ∧
    (∀ (shd : Int → String) (startTime : GoTime) (clusters : List Cluster)
        (i : Nat) (hi : i < clusters.length)
        (hi' : i < (clustersAsTable shd startTime clusters).rows.length),
        (clusters.get ⟨i, hi⟩).status.creationTimestamp = 0 →
        ((clustersAsTable shd startTime clusters).rows.get ⟨i, hi'⟩).cells =
          [clusterCurrentCell (clusters.get ⟨i, hi⟩),
           (clusters.get ⟨i, hi⟩).name,
           (clusters.get ⟨i, hi⟩).product,
           "unknown",
           clusterRegistryCell (clusters.get ⟨i, hi⟩)]) := by
  refine ⟨?_, ?_, ?_⟩
  · intro cl hcl hn
    simp [populateCluster, hcl, hn, minTimeLoop]
  · intro shd startTime c' h
    simp [clusterAgeCell, timeIsZero, h]
  · intro shd startTime clusters i hi hi' h
    simp only [List.get_eq_getElem] at h ⊢
    simp only [clustersAsTable, List.getElem_map]
    simp [clusterAgeCell, timeIsZero, h]

/-- Claim C9 witness: a cluster whose context has no nodes keeps the zero
creation timestamp, and its table row shows Age `"unknown"`. -/
theorem C9_empty_nodes_unknown_age_witness :
    populateCluster c7clientFor (fun _ => .ok ([] : List Node))
      { name := "docker-desktop" } =
      .ok { name := "docker-desktop", status := { creationTimestamp := 0 } } ∧
    ((clustersAsTable (fun _ => "2d") 100
        [{ name := "docker-desktop" }]).rows.get ⟨0, by decide⟩).cells =
      ["", "docker-desktop", "", "unknown", "none"] := by
  have h := C9_empty_nodes_unknown_age c7clientFor
    (fun _ => .ok ([] : List Node)) ({ name := "docker-desktop" } : Cluster)
  have h2 := C9_empty_nodes_unknown_age c7clientFor
    (fun _ => .ok ([] : List Node)) ({ name := "docker-desktop" } : Cluster)
  constructor
  · exact h.1 () rfl rfl
  · have := h2.2.2 (fun _ => "2d") 100 [{ name := "docker-desktop" }]
      0 (by decide) (by decide) rfl
    rw [this]
    rfl

/-- Renderer for the Claim C10 counterexample. -/
def c10shd : Int → String := fun _ => "1d"

/-- Claim C10 counterexample: with no output flag, a Registry object is not
returned unchanged — it is rendered as a registry table — refuting the claim
that only Cluster and ClusterList objects are transformed. -/
theorem C10_transform_counterexample :
    transformForOutput false c10shd 100 (.registry { name := "test-registry" }) ≠
      .registry { name := "test-registry" } ∧
    transformForOutput false c10shd 100 (.registry { name := "test-registry" }) =
      .table (registriesAsTable c10shd 100 [{ name := "test-registry" }]) := by
  exact ⟨by decide, rfl⟩

/-- Claim C10 (amended): with an output flag `transformForOutput` is the
identity; without one, a Cluster or ClusterList becomes the cluster table
with exactly the columns Current, Name, Product, Age, Registry and one row
per cluster, a Registry or RegistryList likewise becomes the registry table,
and objects of any other type are returned unchanged. -/
theorem C10_transform_for_output (outputFlagSpecified : Bool)
    (shd : Int → String) (startTime : GoTime) (obj : RuntimeObject) :
    (outputFlagSpecified = true →
        transformForOutput outputFlagSpecified shd startTime obj = obj) ∧
    (outputFlagSpecified = false →
        (∀ c, obj = .cluster c →
            transformForOutput outputFlagSpecified shd startTime obj =
              .table (clustersAsTable shd startTime [c])) ∧
        (∀ cs, obj = .clusterList cs →
            transformForOutput outputFlagSpecified shd startTime obj =
              .table (clustersAsTable shd startTime cs)) ∧
        (∀ cs : List Cluster,
            (clustersAsTable shd startTime cs).columnDefinitions.map
                TableColumnDefinition.name =
              ["Current", "Name", "Product", "Age", "Registry"] ∧
            (clustersAsTable shd startTime cs).rows.length = cs.length) ∧
        (∀ r, obj = .registry r →
            transformForOutput outputFlagSpecified shd startTime obj =
              .table (registriesAsTable shd startTime [r])) ∧
        (∀ rs, obj = .registryList rs →
            transformForOutput outputFlagSpecified shd startTime obj =
              .table (registriesAsTable shd startTime rs)) ∧
        (∀ t, obj = .table t →
            transformForOutput outputFlagSpecified shd startTime obj =
              .table t) ∧
        (∀ k, obj = .other k →
            transformForOutput outputFlagSpecified shd startTime obj =
              .other k)) := by
  constructor
  · intro hflag
    simp [transformForOutput, hflag]
  · intro hflag
    refine ⟨?_, ?_, ?_, ?_, ?_, ?_, ?_⟩ <;>
      first
        | (intro x hx; subst hx; simp [transformForOutput, hflag])
        | (intro cs; exact ⟨rfl, by simp [clustersAsTable]⟩)

/-- Claim C10 witness: with an output flag a ClusterList passes through
unchanged; without one it becomes a table whose columns are Current, Name,
Product, Age, Registry with one row per cluster, and an unrelated object
passes through. -/
theorem C10_transform_for_output_witness :
    transformForOutput true c10shd 100 (.clusterList [{ name := "kind-kind" }]) =
      .clusterList [{ name := "kind-kind" }] ∧
    transformForOutput false c10shd 100 (.clusterList [{ name := "kind-kind" }]) =
      .table (clustersAsTable c10shd 100 [{ name := "kind-kind" }]) ∧
    (clustersAsTable c10shd 100
        [{ name := "kind-kind" }]).columnDefinitions.map
        TableColumnDefinition.name =
      ["Current", "Name", "Product", "Age", "Registry"] ∧
    (clustersAsTable c10shd 100 [{ name := "kind-kind" }]).rows.length = 1 ∧
    transformForOutput false c10shd 100 (.other "Secret") = .other "Secret" := by
  have h := C10_transform_for_output true c10shd 100
    (.clusterList [{ name := "kind-kind" }])
  have h2 := C10_transform_for_output false c10shd 100
    (.clusterList [{ name := "kind-kind" }])
  have h3 := C10_transform_for_output false c10shd 100 (.other "Secret")
  refine ⟨h.1 rfl, (h2.2 rfl).2.1 _ rfl, ((h2.2 rfl).2.2.1 _).1,
    ((h2.2 rfl).2.2.1 _).2, (h3.2 rfl).2.2.2.2.2.2 _ rfl⟩

end Ctlptl
